import Mathlib

/-! Dotnvim native interop: key normalisation, hit testing and the window region

A shallow embedding of `Dotnvim.NativeInterop.h` (class `Methods`) and of
`update_region` from `BorderlessWindow.cpp`.

Modelling conventions.

* A managed `String^` is an `Option String`; `none` is `nullptr`.  A `WCHAR` is
  modelled as a `Char`.
* `BYTE keyboardState[256]` is a function from the index to the byte value.
  The only writes are `&= 0x7F` and `|= 0x80` on a byte that was masked with
  `0x7F` before, so no value leaves the byte range.
* The operating system is an explicit record of functions (the keyboard
  snapshot, the scan-code table, the locale translation `ToUnicode`, the
  window queries).  `ToUnicode` is taken as a function of its arguments.
* `int` and `LONG` are `Int`, and every addition or subtraction the code
  performs is wrapped to 32 bits by `wrap32`.
-/

namespace Dotnvim

/-! ## Machine integers -/

/-- Two's complement wrap of an integer to the 32-bit signed range. -/
def wrap32 (x : Int) : Int := (x + 2147483648) % 4294967296 - 2147483648

/-- The cast `(UINT)v` of an `int`. -/
def toUINT (v : Int) : Nat := (v % 4294967296).toNat

/-! ## Input normaliser (`Dotnvim.NativeInterop.h`, lines 31-124) -/

/-- Index of the Shift byte in the keyboard state (`VK_SHIFT`, WinUser.h). -/
def VK_SHIFT : Nat := 0x10

/-- Index of the Control byte in the keyboard state (`VK_CONTROL`, WinUser.h). -/
def VK_CONTROL : Nat := 0x11

/-- Index of the Alt byte in the keyboard state (`VK_MENU`, WinUser.h). -/
def VK_MENU : Nat := 0x12

/-- Mapping kind "virtual key to scan code" (`MAPVK_VK_TO_VSC`, WinUser.h). -/
def MAPVK_VK_TO_VSC : Nat := 0

/-- The array `BYTE keyboardState[256]`: index to byte value. -/
abbrev KeyboardState := Nat → Nat

/-- The assignment `keyboardState[i] = v`. -/
def setByte (ks : KeyboardState) (i v : Nat) : KeyboardState :=
  fun j => if j = i then v else ks j

/-- The operating-system calls used by the input normaliser.
`ToUnicode wVirtKey wScanCode lpKeyState cchBuff wFlags` gives the returned
`int` and the contents of the output buffer after the call. -/
structure KeyboardOS where
  GetKeyboardState : KeyboardState
  MapVirtualKey : Nat → Nat → Nat
  ToUnicode : Nat → Nat → KeyboardState → Nat → Nat → Int × List Char

/-- The test `String::IsNullOrEmpty`. -/
def IsNullOrEmpty (s : Option String) : Bool :=
  match s with
  | none => true
  | some t => decide (t = "")

/-- Source function `Methods::GetUnicode` (lines 31-42). -/
def GetUnicode (os : KeyboardOS) (virtualKey scanCode : Nat)
    (keyboardState : KeyboardState) : Option String :=
  let r := os.ToUnicode virtualKey scanCode keyboardState 2 0
  let result := r.1
  let buffer := r.2
  if result ≤ 0 then
    none
  else
    some (String.mk (buffer.take result.toNat))

/-- Source function `Methods::DecorateInput` (lines 102-124).  A null `input` concatenates as
the empty string, as `String::Concat` does. -/
def DecorateInput (input : Option String) (control shift alt : Bool) : String :=
  let output := "<"
  let output := if control then output ++ "C-" else output
  let output := if shift then output ++ "S-" else output
  let output := if alt then output ++ "A-" else output
  let output := output ++ (input.getD "" ++ ">")
  output

/-- Source function `Methods::VirtualKeyToString` (lines 44-100).  Assignments to a local
variable are written as shadowing `let`s; each `if` block returns the
variables it may have assigned. -/
def VirtualKeyToString (os : KeyboardOS) (virtualKey : Int) : Option String :=
  let keyboardState := os.GetKeyboardState
  let control := (keyboardState VK_CONTROL &&& 0x80) != 0
  let shift := (keyboardState VK_SHIFT &&& 0x80) != 0
  let alt := (keyboardState VK_MENU &&& 0x80) != 0
  let keyboardState := setByte keyboardState VK_CONTROL (keyboardState VK_CONTROL &&& 0x7F)
  let keyboardState := setByte keyboardState VK_SHIFT (keyboardState VK_SHIFT &&& 0x7F)
  let keyboardState := setByte keyboardState VK_MENU (keyboardState VK_MENU &&& 0x7F)
  let scanCode := os.MapVirtualKey (toUINT virtualKey) MAPVK_VK_TO_VSC
  let text := GetUnicode os (toUINT virtualKey) scanCode keyboardState
  let (text, control, keyboardState) :=
    if control then
      let keyboardState := setByte keyboardState VK_CONTROL (keyboardState VK_CONTROL ||| 0x80)
      let textWithControl := GetUnicode os (toUINT virtualKey) scanCode keyboardState
      let (text, control) :=
        if !IsNullOrEmpty textWithControl then (textWithControl, false) else (text, control)
      let keyboardState := setByte keyboardState VK_CONTROL (keyboardState VK_CONTROL &&& 0x7F)
      (text, control, keyboardState)
    else
      (text, control, keyboardState)
  let (text, shift) :=
    if shift then
      let keyboardState := setByte keyboardState VK_SHIFT (keyboardState VK_SHIFT ||| 0x80)
      let textWithShift := GetUnicode os (toUINT virtualKey) scanCode keyboardState
      let (text, shift) :=
        if !IsNullOrEmpty textWithShift then (textWithShift, false) else (text, shift)
      (text, shift)
    else
      (text, shift)
  if text = some "<" then
    some (DecorateInput (some "lt") control shift alt)
  else if text = some "\\" then
    some (DecorateInput (some "Bslash") control shift alt)
  else if (control || shift || alt) && !IsNullOrEmpty text then
    some (DecorateInput text control shift alt)
  else
    text

/-! ### Quantities the statements speak about -/

/-- Whether the Control key is down in the snapshot (line 48). -/
def controlHeld (os : KeyboardOS) : Bool := (os.GetKeyboardState VK_CONTROL &&& 0x80) != 0

/-- Whether the Shift key is down in the snapshot (line 49). -/
def shiftHeld (os : KeyboardOS) : Bool := (os.GetKeyboardState VK_SHIFT &&& 0x80) != 0

/-- Whether the Alt key is down in the snapshot (line 50). -/
def altHeld (os : KeyboardOS) : Bool := (os.GetKeyboardState VK_MENU &&& 0x80) != 0

/-- The snapshot with the "down" bit of Control, Shift and Alt cleared. -/
def clearedState (os : KeyboardOS) : KeyboardState :=
  fun j =>
    if j = VK_CONTROL ∨ j = VK_SHIFT ∨ j = VK_MENU then os.GetKeyboardState j &&& 0x7F
    else os.GetKeyboardState j

/-- The cleared snapshot with only the "down" bit of key `k` set again. -/
def stateWithOnly (os : KeyboardOS) (k : Nat) : KeyboardState :=
  fun j => if j = k then clearedState os j ||| 0x80 else clearedState os j

/-- The scan code of the key. -/
def scanCodeOf (os : KeyboardOS) (virtualKey : Int) : Nat :=
  os.MapVirtualKey (toUINT virtualKey) MAPVK_VK_TO_VSC

/-- The returned `int` of the translation with all three modifiers cleared. -/
def baseResult (os : KeyboardOS) (virtualKey : Int) : Int :=
  (os.ToUnicode (toUINT virtualKey) (scanCodeOf os virtualKey) (clearedState os) 2 0).1

/-- The text of the translation with all three modifiers cleared. -/
def baseText (os : KeyboardOS) (virtualKey : Int) : Option String :=
  GetUnicode os (toUINT virtualKey) (scanCodeOf os virtualKey) (clearedState os)

/-- The text of the translation with only Control enabled. -/
def controlText (os : KeyboardOS) (virtualKey : Int) : Option String :=
  GetUnicode os (toUINT virtualKey) (scanCodeOf os virtualKey) (stateWithOnly os VK_CONTROL)

/-- The text of the translation with only Shift enabled. -/
def shiftText (os : KeyboardOS) (virtualKey : Int) : Option String :=
  GetUnicode os (toUINT virtualKey) (scanCodeOf os virtualKey) (stateWithOnly os VK_SHIFT)

/-- Control is held and its retry gave no text: Control is reported. -/
def controlReported (os : KeyboardOS) (virtualKey : Int) : Bool :=
  controlHeld os && IsNullOrEmpty (controlText os virtualKey)

/-- Shift is held and its retry gave no text: Shift is reported. -/
def shiftReported (os : KeyboardOS) (virtualKey : Int) : Bool :=
  shiftHeld os && IsNullOrEmpty (shiftText os virtualKey)

/-- The base text after the two retries: the Shift text when Shift is held
and consumed, else the Control text when Control is held and consumed, else
the unmodified text. -/
def textAfterRetries (os : KeyboardOS) (virtualKey : Int) : Option String :=
  if shiftHeld os && !IsNullOrEmpty (shiftText os virtualKey) then shiftText os virtualKey
  else if controlHeld os && !IsNullOrEmpty (controlText os virtualKey) then
    controlText os virtualKey
  else baseText os virtualKey

/-- The bracketed form written out as one concatenation. -/
def bracketed (input : String) (control shift alt : Bool) : String :=
  "<" ++ (if control then "C-" else "") ++ (if shift then "S-" else "")
    ++ (if alt then "A-" else "") ++ input ++ ">"

/-- A keyboard given by a snapshot `ks` and a translation table `tr`; the
table gives, for a virtual key and the three "down" bits (Control, Shift,
Alt) of the state passed to `ToUnicode`, the returned `int` and the buffer.
The scan code of a key is taken to be its virtual-key code. -/
def tableKeyboard (ks : KeyboardState)
    (tr : Nat → Bool → Bool → Bool → Int × List Char) : KeyboardOS where
  GetKeyboardState := ks
  MapVirtualKey := fun code _ => code
  ToUnicode := fun vk _ st _ _ =>
    tr vk ((st VK_CONTROL &&& 0x80) != 0) ((st VK_SHIFT &&& 0x80) != 0)
      ((st VK_MENU &&& 0x80) != 0)

/-- A snapshot with the given modifier keys down and every other key up. -/
def snapshot (control shift alt : Bool) : KeyboardState :=
  fun j =>
    if j = VK_CONTROL then (if control then 0x80 else 0)
    else if j = VK_SHIFT then (if shift then 0x80 else 0)
    else if j = VK_MENU then (if alt then 0x80 else 0)
    else 0

/-- Translation table of the US layout for three keys: `VK_OEM_5` (0xDC, the
backslash key), `VK_OEM_COMMA` (0xBC) and `A` (0x41).  Alt alone does not
change a translation; Control gives the control character of a letter and of
the backslash key and nothing for the comma key. -/
def usTable (vk : Nat) (control shift _alt : Bool) : Int × List Char :=
  if vk = 0xDC then
    (if control then (if shift then (0, ['\x00', '\x00']) else (1, ['\x1c', '\x00']))
     else if shift then (1, ['|', '\x00']) else (1, ['\\', '\x00']))
  else if vk = 0xBC then
    (if control then (0, ['\x00', '\x00'])
     else if shift then (1, ['<', '\x00']) else (1, [',', '\x00']))
  else if vk = 0x41 then
    (if control then (1, ['\x01', '\x00'])
     else if shift then (1, ['A', '\x00']) else (1, ['a', '\x00']))
  else (0, ['\x00', '\x00'])

/-- Translation table of the German layout for two keys: `VK_OEM_5` (0xDC),
the dead circumflex key whose Shift level is the degree sign, and
`VK_OEM_102` (0xE2), the key of the less-than sign.  A dead key makes
`ToUnicode` return -1. -/
def deTable (vk : Nat) (control shift _alt : Bool) : Int × List Char :=
  if vk = 0xDC then
    (if control then (0, ['\x00', '\x00'])
     else if shift then (1, ['°', '\x00']) else (-1, ['^', '\x00']))
  else if vk = 0xE2 then
    (if control then (0, ['\x00', '\x00'])
     else if shift then (1, ['>', '\x00']) else (1, ['<', '\x00']))
  else (0, ['\x00', '\x00'])

/-- Translation table of a user-defined layout: the Control level of key 0xDC
is a backslash, its other levels are those of the number sign key; key 0xE2
gives the less-than sign and has no Control or Shift level. -/
def customTable (vk : Nat) (control shift _alt : Bool) : Int × List Char :=
  if vk = 0xDC then
    (if control then (if shift then (0, ['\x00', '\x00']) else (1, ['\\', '\x00']))
     else if shift then (1, ['~', '\x00']) else (1, ['#', '\x00']))
  else if vk = 0xE2 then
    (if control || shift then (0, ['\x00', '\x00']) else (1, ['<', '\x00']))
  else (0, ['\x00', '\x00'])

/-- The same operating system after the Control key is released: the "down"
bit of the Control byte of the snapshot is cleared. -/
def releaseControl (os : KeyboardOS) : KeyboardOS :=
  { os with
    GetKeyboardState :=
      setByte os.GetKeyboardState VK_CONTROL (os.GetKeyboardState VK_CONTROL &&& 0x7F) }

/-! ## Window queries shared by the region code and the hit test -/

/-- The Win32 `RECT`. -/
structure RECT where
  left : Int
  top : Int
  right : Int
  bottom : Int
  deriving DecidableEq

/-- The Win32 `POINT`. -/
structure POINT where
  x : Int
  y : Int
  deriving DecidableEq

/-- The two fields of `WINDOWINFO` the code reads. -/
structure WINDOWINFO where
  rcWindow : RECT
  rcClient : RECT
  deriving DecidableEq

/-- The operating-system queries on a window handle: `IsZoomed` (windowsx.h
defines `IsMaximized` as it), `GetWindowInfo`, and
`ScreenToClient`, which gives the converted point. -/
structure WindowOS where
  IsZoomed : Nat → Bool
  GetWindowInfo : Nat → WINDOWINFO
  ScreenToClient : Nat → POINT → POINT

/-- The Win32 `EqualRect`: the four coordinates are compared. -/
def EqualRect (a b : RECT) : Bool :=
  decide (a.left = b.left ∧ a.top = b.top ∧ a.right = b.right ∧ a.bottom = b.bottom)

/-! ## Window region (`BorderlessWindow.cpp`, lines 21-72) -/

/-- The per-window data, `struct window` (lines 21-31). -/
structure window where
  hwnd : Nat
  width : Nat
  height : Nat
  rgn : RECT
  theme_enabled : Bool
  composition_enabled : Bool
  deriving DecidableEq

/-- A call of `SetWindowRgn(hwnd, region, TRUE)`: with `NULL` (line 69) or with
`CreateRectRgnIndirect` of a rectangle (line 71). -/
inductive RegionCall where
  | setNull (hwnd : Nat)
  | setRect (hwnd : Nat) (rc : RECT)
  deriving DecidableEq

/-- The rectangle `(RECT) { 0 }`. -/
def zeroRect : RECT := ⟨0, 0, 0, 0⟩

/-- Source function `update_region` (lines 33-72): the updated window data and the
`SetWindowRgn` calls issued, in order. -/
def update_region (os : WindowOS) (data : window) : window × List RegionCall :=
  let old_rgn := data.rgn
  let data :=
    if os.IsZoomed data.hwnd then
      let wi := os.GetWindowInfo data.hwnd
      let data := { data with rgn := zeroRect }
      let data := { data with rgn := { data.rgn with
        left := wrap32 (wi.rcClient.left - wi.rcWindow.left) } }
      let data := { data with rgn := { data.rgn with
        top := wrap32 (wi.rcClient.top - wi.rcWindow.top) } }
      let data := { data with rgn := { data.rgn with
        right := wrap32 (wi.rcClient.right - wi.rcWindow.left) } }
      let data := { data with rgn := { data.rgn with
        bottom := wrap32 (wi.rcClient.bottom - wi.rcWindow.top) } }
      data
    else if !data.composition_enabled then
      let data := { data with rgn := { data.rgn with left := 0 } }
      let data := { data with rgn := { data.rgn with top := 0 } }
      let data := { data with rgn := { data.rgn with right := 32767 } }
      let data := { data with rgn := { data.rgn with bottom := 32767 } }
      data
    else
      { data with rgn := zeroRect }
  if EqualRect data.rgn old_rgn then
    (data, [])
  else if EqualRect data.rgn zeroRect then
    (data, [RegionCall.setNull data.hwnd])
  else
    (data, [RegionCall.setRect data.hwnd data.rgn])

/-- The rectangle the three cases of lines 37-62 compute: the client
rectangle relative to the window origin for a maximized window, a very large
rectangle when composition is disabled, the all-zero rectangle otherwise. -/
def computedRegion (os : WindowOS) (data : window) : RECT :=
  if os.IsZoomed data.hwnd then
    let wi := os.GetWindowInfo data.hwnd
    ⟨wrap32 (wi.rcClient.left - wi.rcWindow.left), wrap32 (wi.rcClient.top - wi.rcWindow.top),
     wrap32 (wi.rcClient.right - wi.rcWindow.left), wrap32 (wi.rcClient.bottom - wi.rcWindow.top)⟩
  else if !data.composition_enabled then ⟨0, 0, 32767, 32767⟩
  else zeroRect

/-- A rectangle of zero area: `left >= right` or `top >= bottom`. -/
def zeroArea (r : RECT) : Bool := decide (r.left ≥ r.right ∨ r.top ≥ r.bottom)

/-- Window queries of a maximized window with the given rectangles. -/
def maximizedOS (rcWindow rcClient : RECT) : WindowOS where
  IsZoomed := fun _ => true
  GetWindowInfo := fun _ => ⟨rcWindow, rcClient⟩
  ScreenToClient := fun _ p => p

/-- Window data with the given cached region, for window handle 1. -/
def windowWith (rgn : RECT) (composition : Bool) : window :=
  ⟨1, 0, 0, rgn, false, composition⟩

/-! ## Hit test (`Dotnvim.NativeInterop.h`, lines 136-204) -/

/-- Hit-test code `HTCLIENT` (WinUser.h). -/
def HTCLIENT : Int := 1
/-- Hit-test code `HTCAPTION` (WinUser.h). -/
def HTCAPTION : Int := 2
/-- Hit-test code `HTLEFT` (WinUser.h). -/
def HTLEFT : Int := 10
/-- Hit-test code `HTRIGHT` (WinUser.h). -/
def HTRIGHT : Int := 11
/-- Hit-test code `HTTOP` (WinUser.h). -/
def HTTOP : Int := 12
/-- Hit-test code `HTTOPLEFT` (WinUser.h). -/
def HTTOPLEFT : Int := 13
/-- Hit-test code `HTTOPRIGHT` (WinUser.h). -/
def HTTOPRIGHT : Int := 14
/-- Hit-test code `HTBOTTOM` (WinUser.h). -/
def HTBOTTOM : Int := 15
/-- Hit-test code `HTBOTTOMLEFT` (WinUser.h). -/
def HTBOTTOMLEFT : Int := 16
/-- Hit-test code `HTBOTTOMRIGHT` (WinUser.h). -/
def HTBOTTOMRIGHT : Int := 17

/-- The cast `(int)(short)w` of a 16-bit word. -/
def toShort (w : Int) : Int := if w < 32768 then w else w - 65536

/-- The definition of `GET_X_LPARAM` (windowsx.h): the signed low word. -/
def GET_X_LPARAM (lp : Int) : Int := toShort (lp % 65536)

/-- The definition of `GET_Y_LPARAM` (windowsx.h): the signed high word. -/
def GET_Y_LPARAM (lp : Int) : Int := toShort ((lp / 65536) % 65536)

/-- Source function `Methods::NCHitTest` (lines 136-204).  The local `border` is the value
returned from inside the block `if (!IsZoomed(hwnd))` (lines 156-196), and
`none` when control leaves that block without returning. -/
def NCHitTest (os : WindowOS) (handle : Nat) (lParam : Int)
    (xBorderWidth yBorderWidth titleBarHeight : Int)
    (clientAreaHitTest : Int → Int → Bool) : Int :=
  let hwnd := handle
  let x := GET_X_LPARAM lParam
  let y := GET_Y_LPARAM lParam
  let point : POINT := ⟨x, y⟩
  let point := os.ScreenToClient hwnd point
  if clientAreaHitTest point.x point.y then
    HTCLIENT
  else
    let windowInfo := os.GetWindowInfo hwnd
    let height := wrap32 (windowInfo.rcWindow.bottom - windowInfo.rcWindow.top)
    let width := wrap32 (windowInfo.rcWindow.right - windowInfo.rcWindow.left)
    let border : Option Int :=
      if !os.IsZoomed hwnd then
        if point.x < xBorderWidth then
          if point.y < yBorderWidth then some HTTOPLEFT
          else if point.y > wrap32 (height - yBorderWidth) then some HTBOTTOMLEFT
          else some HTLEFT
        else if point.x > wrap32 (width - xBorderWidth) then
          if point.y < yBorderWidth then some HTTOPRIGHT
          else if point.y > wrap32 (height - yBorderWidth) then some HTBOTTOMRIGHT
          else some HTRIGHT
        else if point.y < yBorderWidth then some HTTOP
        else if point.y > wrap32 (height - yBorderWidth) then some HTBOTTOM
        else none
      else none
    match border with
    | some zone => zone
    | none =>
      if point.y < wrap32 (titleBarHeight + yBorderWidth) then HTCAPTION
      else HTCLIENT

/-- The window-local point the hit test works on (lines 139-143). -/
def localPoint (os : WindowOS) (handle : Nat) (lParam : Int) : POINT :=
  os.ScreenToClient handle ⟨GET_X_LPARAM lParam, GET_Y_LPARAM lParam⟩

/-- The point lies in one of the eight border zones: within the border
thickness of the left, right, top or bottom edge of the window rectangle. -/
def inBorderZone (os : WindowOS) (handle : Nat) (p : POINT)
    (xBorderWidth yBorderWidth : Int) : Bool :=
  let rc := (os.GetWindowInfo handle).rcWindow
  decide (p.x < xBorderWidth ∨ p.x > wrap32 (wrap32 (rc.right - rc.left) - xBorderWidth) ∨
    p.y < yBorderWidth ∨ p.y > wrap32 (wrap32 (rc.bottom - rc.top) - yBorderWidth))

/-- Window queries of a window at `rcWindow`, maximized or not, whose client
origin is the window origin. -/
def plainOS (zoomed : Bool) (rcWindow : RECT) : WindowOS where
  IsZoomed := fun _ => zoomed
  GetWindowInfo := fun _ => ⟨rcWindow, rcWindow⟩
  ScreenToClient := fun _ p => ⟨p.x - rcWindow.left, p.y - rcWindow.top⟩

/-! ## Theorems: input normaliser -/

/-- Setting and clearing the "down" bit of a masked byte gives the masked byte. -/
theorem mask_set_mask (x : Nat) : ((x &&& 0x7F) ||| 0x80) &&& 0x7F = x &&& 0x7F := by
  have h : x &&& 0x7F ≤ 0x7F := Nat.and_le_right
  generalize x &&& 0x7F = y at h
  have key : ∀ y, y < 128 → (y ||| 0x80) &&& 0x7F = y := by decide
  exact key y (by omega)

/-- The three masking assignments of lines 51-53 give `clearedState`. -/
theorem cleared_eq (os : KeyboardOS) :
    setByte (setByte (setByte os.GetKeyboardState VK_CONTROL
        (os.GetKeyboardState VK_CONTROL &&& 0x7F)) VK_SHIFT
        (setByte os.GetKeyboardState VK_CONTROL
          (os.GetKeyboardState VK_CONTROL &&& 0x7F) VK_SHIFT &&& 0x7F)) VK_MENU
      (setByte (setByte os.GetKeyboardState VK_CONTROL
        (os.GetKeyboardState VK_CONTROL &&& 0x7F)) VK_SHIFT
        (setByte os.GetKeyboardState VK_CONTROL
          (os.GetKeyboardState VK_CONTROL &&& 0x7F) VK_SHIFT &&& 0x7F) VK_MENU &&& 0x7F)
      = clearedState os := by
  funext j
  simp only [setByte, clearedState, VK_CONTROL, VK_SHIFT, VK_MENU]
  by_cases h1 : j = 0x11
  · subst h1; simp
  · by_cases h2 : j = 0x10
    · subst h2; simp
    · by_cases h3 : j = 0x12
      · subst h3; simp
      · simp [h1, h2, h3]

/-- The state passed to the Control retry (line 60) is `stateWithOnly VK_CONTROL`. -/
theorem withControl_eq (os : KeyboardOS) :
    setByte (clearedState os) VK_CONTROL (clearedState os VK_CONTROL ||| 0x80)
      = stateWithOnly os VK_CONTROL := by
  funext j
  simp only [setByte, stateWithOnly]
  by_cases h : j = VK_CONTROL
  · subst h; simp
  · simp [h]

/-- The state passed to the Shift retry (line 73) is `stateWithOnly VK_SHIFT`. -/
theorem withShift_eq (os : KeyboardOS) :
    setByte (clearedState os) VK_SHIFT (clearedState os VK_SHIFT ||| 0x80)
      = stateWithOnly os VK_SHIFT := by
  funext j
  simp only [setByte, stateWithOnly]
  by_cases h : j = VK_SHIFT
  · subst h; simp
  · simp [h]

/-- Line 68 restores the cleared state after the Control retry. -/
theorem restore_eq (os : KeyboardOS) :
    setByte (stateWithOnly os VK_CONTROL) VK_CONTROL
        (stateWithOnly os VK_CONTROL VK_CONTROL &&& 0x7F)
      = clearedState os := by
  funext j
  simp only [setByte, stateWithOnly]
  by_cases h : j = VK_CONTROL
  · subst h
    simp only [if_true, clearedState, true_or]
    exact mask_set_mask _
  · simp [h]

/-- The last step of `VirtualKeyToString` (lines 84-99) as a function of the
text and the flags left after the retries. -/
theorem VirtualKeyToString_eq (os : KeyboardOS) (virtualKey : Int) :
    VirtualKeyToString os virtualKey =
      if textAfterRetries os virtualKey = some "<" then
        some (DecorateInput (some "lt") (controlReported os virtualKey)
          (shiftReported os virtualKey) (altHeld os))
      else if textAfterRetries os virtualKey = some "\\" then
        some (DecorateInput (some "Bslash") (controlReported os virtualKey)
          (shiftReported os virtualKey) (altHeld os))
      else if (controlReported os virtualKey || shiftReported os virtualKey || altHeld os)
          && !IsNullOrEmpty (textAfterRetries os virtualKey) then
        some (DecorateInput (textAfterRetries os virtualKey) (controlReported os virtualKey)
          (shiftReported os virtualKey) (altHeld os))
      else textAfterRetries os virtualKey := by
  unfold VirtualKeyToString
  simp only [cleared_eq]
  simp only [withControl_eq, restore_eq]
  simp only [textAfterRetries, controlReported, shiftReported, altHeld, controlHeld, shiftHeld,
    baseText, controlText, shiftText, scanCodeOf]
  generalize (os.GetKeyboardState VK_CONTROL &&& 0x80 != 0) = ch
  generalize (os.GetKeyboardState VK_SHIFT &&& 0x80 != 0) = sh
  generalize (os.GetKeyboardState VK_MENU &&& 0x80 != 0) = al
  generalize os.MapVirtualKey (toUINT virtualKey) MAPVK_VK_TO_VSC = sc
  cases ch
  · simp only [Bool.false_eq_true, if_false, withShift_eq, Bool.false_and, Bool.false_or]
    generalize GetUnicode os (toUINT virtualKey) sc (clearedState os) = tb
    generalize GetUnicode os (toUINT virtualKey) sc (stateWithOnly os VK_SHIFT) = ts
    cases sh <;> cases hns : IsNullOrEmpty ts <;> simp [hns]
  · simp only [if_true, Bool.true_and, withShift_eq]
    generalize GetUnicode os (toUINT virtualKey) sc (clearedState os) = tb
    generalize GetUnicode os (toUINT virtualKey) sc (stateWithOnly os VK_SHIFT) = ts
    generalize GetUnicode os (toUINT virtualKey) sc (stateWithOnly os VK_CONTROL) = tc
    cases sh <;> cases hns : IsNullOrEmpty ts <;> cases hnc : IsNullOrEmpty tc <;> simp [hns, hnc]

/-- The sequence of appends of `DecorateInput` is the one concatenation `bracketed`. -/
theorem DecorateInput_eq_bracketed (input : String) (control shift alt : Bool) :
    DecorateInput (some input) control shift alt = bracketed input control shift alt := by
  cases control <;> cases shift <;> cases alt <;>
    simp [DecorateInput, bracketed, String.append_assoc]

/-- C1 fails as stated: on the US layout the backslash key pressed with no
modifier held gives the bracketed token `<Bslash>`, which is neither empty
nor the plain base text. -/
theorem C1_counterexample :
    controlHeld (tableKeyboard (snapshot false false false) usTable) = false ∧
    shiftHeld (tableKeyboard (snapshot false false false) usTable) = false ∧
    altHeld (tableKeyboard (snapshot false false false) usTable) = false ∧
    baseText (tableKeyboard (snapshot false false false) usTable) 0xDC = some "\\" ∧
    VirtualKeyToString (tableKeyboard (snapshot false false false) usTable) 0xDC
      = some "<Bslash>" ∧
    ¬ (VirtualKeyToString (tableKeyboard (snapshot false false false) usTable) 0xDC = none ∨
       VirtualKeyToString (tableKeyboard (snapshot false false false) usTable) 0xDC = some "" ∨
       VirtualKeyToString (tableKeyboard (snapshot false false false) usTable) 0xDC
         = baseText (tableKeyboard (snapshot false false false) usTable) 0xDC) := by
  decide

/-- C1, amended: with Control, Shift and Alt all not pressed, the output of
`VirtualKeyToString` is the plain base text of the unmodified translation
(null when there is none), except that a base text `<` gives `<lt>` and a
base text backslash gives `<Bslash>`. -/
theorem C1_no_modifiers (os : KeyboardOS) (virtualKey : Int)
    (hc : controlHeld os = false) (hs : shiftHeld os = false) (ha : altHeld os = false) :
    VirtualKeyToString os virtualKey =
      if baseText os virtualKey = some "<" then some "<lt>"
      else if baseText os virtualKey = some "\\" then some "<Bslash>"
      else baseText os virtualKey := by
  rw [VirtualKeyToString_eq]
  simp only [textAfterRetries, controlReported, shiftReported, hc, hs, ha, Bool.false_and,
    Bool.false_or, Bool.false_eq_true, if_false]
  rfl

/-- An instance of the amended C1: the key `A` on the US layout with nothing held. -/
theorem C1_no_modifiers_witness :
    controlHeld (tableKeyboard (snapshot false false false) usTable) = false ∧
    shiftHeld (tableKeyboard (snapshot false false false) usTable) = false ∧
    altHeld (tableKeyboard (snapshot false false false) usTable) = false ∧
    VirtualKeyToString (tableKeyboard (snapshot false false false) usTable) 0x41 = some "a" :=
  ⟨by decide, by decide, by decide,
    (C1_no_modifiers (tableKeyboard (snapshot false false false) usTable) 0x41
      (by decide) (by decide) (by decide)).trans (by decide)⟩

/-- C2: whenever the base text after the Control and Shift retries is `<`,
the output is `DecorateInput("lt", c, s, a)`, and whenever it is a backslash
the output is `DecorateInput("Bslash", c, s, a)`, with `c`, `s`, `a` the held
and not consumed Control, Shift and Alt flags; with no flag left the token is
still bracketed (`<lt>`, `<Bslash>`).  In particular a backslash with no
modifier held gives `<Bslash>`, and `<` with Control and Shift held (Alt not
held) and both not consumed gives `<C-S-lt>`. -/
theorem C2_special_keys (os : KeyboardOS) (virtualKey : Int) :
    (textAfterRetries os virtualKey = some "<" →
      VirtualKeyToString os virtualKey =
        some (DecorateInput (some "lt") (controlReported os virtualKey)
          (shiftReported os virtualKey) (altHeld os))) ∧
    (textAfterRetries os virtualKey = some "\\" →
      VirtualKeyToString os virtualKey =
        some (DecorateInput (some "Bslash") (controlReported os virtualKey)
          (shiftReported os virtualKey) (altHeld os))) ∧
    DecorateInput (some "lt") false false false = "<lt>" ∧
    DecorateInput (some "Bslash") false false false = "<Bslash>" ∧
    (controlHeld os = false → shiftHeld os = false → altHeld os = false →
      baseText os virtualKey = some "\\" →
      VirtualKeyToString os virtualKey = some "<Bslash>") ∧
    (controlHeld os = true → shiftHeld os = true → altHeld os = false →
      IsNullOrEmpty (controlText os virtualKey) = true →
      IsNullOrEmpty (shiftText os virtualKey) = true →
      baseText os virtualKey = some "<" →
      VirtualKeyToString os virtualKey = some "<C-S-lt>") := by
  refine ⟨?_, ?_, by decide, by decide, ?_, ?_⟩
  · intro h
    rw [VirtualKeyToString_eq, if_pos h]
  · intro h
    have hne : textAfterRetries os virtualKey ≠ some "<" := by
      rw [h]; decide
    rw [VirtualKeyToString_eq, if_neg hne, if_pos h]
  · intro hc hs ha hb
    rw [VirtualKeyToString_eq]
    simp only [textAfterRetries, controlReported, shiftReported, hc, hs, ha, hb,
      Bool.false_and, Bool.false_eq_true, if_false]
    decide
  · intro hc hs ha hct hst hb
    rw [VirtualKeyToString_eq]
    simp only [textAfterRetries, controlReported, shiftReported, hc, hs, ha, hb, hct, hst,
      Bool.true_and, Bool.not_true, Bool.false_eq_true, if_false]
    decide

/-- Instances of C2: backslash alone, `<` with Control and Shift reported, and
Control+Shift+comma on the US layout, where Shift is consumed into `<`. -/
theorem C2_special_keys_witness :
    VirtualKeyToString (tableKeyboard (snapshot false false false) usTable) 0xDC
      = some "<Bslash>" ∧
    VirtualKeyToString (tableKeyboard (snapshot true true false) customTable) 0xE2
      = some "<C-S-lt>" ∧
    VirtualKeyToString (tableKeyboard (snapshot true true false) usTable) 0xBC
      = some (DecorateInput (some "lt") true false false) :=
  ⟨(C2_special_keys (tableKeyboard (snapshot false false false) usTable) 0xDC).2.2.2.2.1
      (by decide) (by decide) (by decide) (by decide),
    (C2_special_keys (tableKeyboard (snapshot true true false) customTable) 0xE2).2.2.2.2.2
      (by decide) (by decide) (by decide) (by decide) (by decide) (by decide),
    (C2_special_keys (tableKeyboard (snapshot true true false) usTable) 0xBC).1 (by decide)⟩

/-- C3 fails as stated: on a layout whose Control level of a key is a
backslash, that key pressed with Control alone gives `<Bslash>`, not the bare
Control text. -/
theorem C3_counterexample :
    controlHeld (tableKeyboard (snapshot true false false) customTable) = true ∧
    shiftHeld (tableKeyboard (snapshot true false false) customTable) = false ∧
    altHeld (tableKeyboard (snapshot true false false) customTable) = false ∧
    controlText (tableKeyboard (snapshot true false false) customTable) 0xDC = some "\\" ∧
    IsNullOrEmpty (controlText (tableKeyboard (snapshot true false false) customTable) 0xDC)
      = false ∧
    VirtualKeyToString (tableKeyboard (snapshot true false false) customTable) 0xDC
      = some "<Bslash>" ∧
    VirtualKeyToString (tableKeyboard (snapshot true false false) customTable) 0xDC
      ≠ controlText (tableKeyboard (snapshot true false false) customTable) 0xDC := by
  decide

/-- C3, amended: for a key whose translation with only Control enabled is
non-empty, pressed with Control alone (Shift and Alt not pressed), the output
is that Control text, bare, with no `C-` and no brackets, except that a
Control text `<` gives `<lt>` and a Control text backslash gives `<Bslash>`
(still without `C-`). -/
theorem C3_control_consumed (os : KeyboardOS) (virtualKey : Int)
    (hc : controlHeld os = true) (hs : shiftHeld os = false) (ha : altHeld os = false)
    (hct : IsNullOrEmpty (controlText os virtualKey) = false) :
    VirtualKeyToString os virtualKey =
      if controlText os virtualKey = some "<" then some "<lt>"
      else if controlText os virtualKey = some "\\" then some "<Bslash>"
      else controlText os virtualKey := by
  rw [VirtualKeyToString_eq]
  simp only [textAfterRetries, controlReported, shiftReported, hc, hs, ha, hct, Bool.false_and,
    Bool.true_and, Bool.not_false, Bool.false_or, Bool.false_eq_true, if_false, if_true]
  rfl

/-- An instance of the amended C3: Control+A on the US layout. -/
theorem C3_control_consumed_witness :
    controlHeld (tableKeyboard (snapshot true false false) usTable) = true ∧
    shiftHeld (tableKeyboard (snapshot true false false) usTable) = false ∧
    altHeld (tableKeyboard (snapshot true false false) usTable) = false ∧
    controlText (tableKeyboard (snapshot true false false) usTable) 0x41 = some "\x01" ∧
    VirtualKeyToString (tableKeyboard (snapshot true false false) usTable) 0x41
      = some "\x01" :=
  ⟨by decide, by decide, by decide, by decide,
    (C3_control_consumed (tableKeyboard (snapshot true false false) usTable) 0x41
      (by decide) (by decide) (by decide) (by decide)).trans (by decide)⟩

/-- C4 fails as stated: with Control held and an empty Control-only
translation the output is not always `<C-x>`.  On the US layout the comma key
gives `<C-A-,>` when Alt is held too and `<C-lt>` when Shift is held too, a
function key without translation gives no output, and on the German layout
the key of the less-than sign gives `<C-lt>`. -/
theorem C4_counterexample :
    (controlHeld (tableKeyboard (snapshot true false true) usTable) = true ∧
      IsNullOrEmpty (controlText (tableKeyboard (snapshot true false true) usTable) 0xBC)
        = true ∧
      baseText (tableKeyboard (snapshot true false true) usTable) 0xBC = some "," ∧
      VirtualKeyToString (tableKeyboard (snapshot true false true) usTable) 0xBC
        = some "<C-A-,>" ∧
      VirtualKeyToString (tableKeyboard (snapshot true false true) usTable) 0xBC
        ≠ some "<C-,>") ∧
    (controlHeld (tableKeyboard (snapshot true true false) usTable) = true ∧
      IsNullOrEmpty (controlText (tableKeyboard (snapshot true true false) usTable) 0xBC)
        = true ∧
      baseText (tableKeyboard (snapshot true true false) usTable) 0xBC = some "," ∧
      VirtualKeyToString (tableKeyboard (snapshot true true false) usTable) 0xBC
        = some "<C-lt>" ∧
      VirtualKeyToString (tableKeyboard (snapshot true true false) usTable) 0xBC
        ≠ some "<C-,>") ∧
    (controlHeld (tableKeyboard (snapshot true false false) usTable) = true ∧
      IsNullOrEmpty (controlText (tableKeyboard (snapshot true false false) usTable) 0x70)
        = true ∧
      baseText (tableKeyboard (snapshot true false false) usTable) 0x70 = none ∧
      VirtualKeyToString (tableKeyboard (snapshot true false false) usTable) 0x70 = none ∧
      VirtualKeyToString (tableKeyboard (snapshot true false false) usTable) 0x70
        ≠ some "<C->") ∧
    (controlHeld (tableKeyboard (snapshot true false false) deTable) = true ∧
      IsNullOrEmpty (controlText (tableKeyboard (snapshot true false false) deTable) 0xE2)
        = true ∧
      baseText (tableKeyboard (snapshot true false false) deTable) 0xE2 = some "<" ∧
      VirtualKeyToString (tableKeyboard (snapshot true false false) deTable) 0xE2
        = some "<C-lt>" ∧
      VirtualKeyToString (tableKeyboard (snapshot true false false) deTable) 0xE2
        ≠ some "<C-<>") := by
  decide

/-- C4, amended: for a key whose translation with only Control enabled is
empty, pressed with Control alone (Shift and Alt not pressed), whose
unmodified translation is a non-empty text `x` other than `<` and backslash,
the output is exactly `<C-x>`. -/
theorem C4_control_reported (os : KeyboardOS) (virtualKey : Int) (x : String)
    (hc : controlHeld os = true) (hs : shiftHeld os = false) (ha : altHeld os = false)
    (hct : IsNullOrEmpty (controlText os virtualKey) = true)
    (hb : baseText os virtualKey = some x)
    (hx : x ≠ "") (hlt : x ≠ "<") (hbs : x ≠ "\\") :
    VirtualKeyToString os virtualKey = some ("<C-" ++ x ++ ">") := by
  rw [VirtualKeyToString_eq]
  have hne : IsNullOrEmpty (some x) = false := by
    simp [IsNullOrEmpty, hx]
  simp only [textAfterRetries, controlReported, shiftReported, hc, hs, ha, hct, hb,
    Bool.false_and, Bool.true_and, Bool.not_true, Bool.false_eq_true, if_false,
    Option.some.injEq, hlt, hbs, Bool.true_or, hne, Bool.not_false,
    if_true, DecorateInput_eq_bracketed, bracketed]
  rfl

/-- An instance of the amended C4: Control+comma on the US layout. -/
theorem C4_control_reported_witness :
    controlHeld (tableKeyboard (snapshot true false false) usTable) = true ∧
    IsNullOrEmpty (controlText (tableKeyboard (snapshot true false false) usTable) 0xBC)
      = true ∧
    baseText (tableKeyboard (snapshot true false false) usTable) 0xBC = some "," ∧
    VirtualKeyToString (tableKeyboard (snapshot true false false) usTable) 0xBC
      = some "<C-,>" :=
  ⟨by decide, by decide, by decide,
    (C4_control_reported (tableKeyboard (snapshot true false false) usTable) 0xBC ","
      (by decide) (by decide) (by decide) (by decide) (by decide) (by decide) (by decide)
      (by decide)).trans (by decide)⟩

/-- C5 fails as stated: on the German layout the dead circumflex key has no
unmodified translation (`ToUnicode` returns -1), yet pressed with Shift the
output is the degree sign. -/
theorem C5_counterexample :
    baseResult (tableKeyboard (snapshot false true false) deTable) 0xDC = -1 ∧
    baseText (tableKeyboard (snapshot false true false) deTable) 0xDC = none ∧
    shiftHeld (tableKeyboard (snapshot false true false) deTable) = true ∧
    VirtualKeyToString (tableKeyboard (snapshot false true false) deTable) 0xDC
      = some "°" := by
  decide

/-- C5, amended: if the translation with all modifiers cleared yields no
printable result (`ToUnicode` result `<= 0`) and the retry of each held
modifier (Control-only when Control is held, Shift-only when Shift is held)
yields no text either, `VirtualKeyToString` returns null, whatever modifiers
are held. -/
theorem C5_no_translation (os : KeyboardOS) (virtualKey : Int)
    (hb : baseResult os virtualKey ≤ 0)
    (hct : controlHeld os = true → IsNullOrEmpty (controlText os virtualKey) = true)
    (hst : shiftHeld os = true → IsNullOrEmpty (shiftText os virtualKey) = true) :
    VirtualKeyToString os virtualKey = none := by
  have hbase : baseText os virtualKey = none := by
    unfold baseResult at hb
    simp only [baseText, GetUnicode, hb, if_true]
  have ht : textAfterRetries os virtualKey = none := by
    unfold textAfterRetries
    cases hc : controlHeld os <;> cases hs : shiftHeld os <;>
      simp [hbase, hct, hst, hc, hs]
  rw [VirtualKeyToString_eq, ht]
  simp [IsNullOrEmpty]

/-- An instance of the amended C5: the dead circumflex key of the German layout
with Control and Alt held. -/
theorem C5_no_translation_witness :
    baseResult (tableKeyboard (snapshot true false true) deTable) 0xDC ≤ 0 ∧
    controlHeld (tableKeyboard (snapshot true false true) deTable) = true ∧
    altHeld (tableKeyboard (snapshot true false true) deTable) = true ∧
    VirtualKeyToString (tableKeyboard (snapshot true false true) deTable) 0xDC = none :=
  ⟨by decide, by decide, by decide,
    C5_no_translation (tableKeyboard (snapshot true false true) deTable) 0xDC
      (by decide) (by decide) (by decide)⟩

/-- C9: `DecorateInput` returns `<`, then `C-` if control, then `S-` if
shift, then `A-` if alt, then the input, then `>`, in that order; and every
output of `VirtualKeyToString` is either the bare text left after the retries
or such a bracketed token, around `lt`, `Bslash` or that text, whose Control
and Shift markers are present exactly
when the modifier is held and its retry gave no text, and whose Alt marker is
present exactly when Alt is held. -/
theorem C9_modifier_order (os : KeyboardOS) (virtualKey : Int) (input : String)
    (control shift alt : Bool) :
    DecorateInput (some input) control shift alt
      = "<" ++ (if control then "C-" else "") ++ (if shift then "S-" else "")
          ++ (if alt then "A-" else "") ++ input ++ ">" ∧
    (VirtualKeyToString os virtualKey = textAfterRetries os virtualKey ∨
     ∃ name : String,
       (name = "lt" ∨ name = "Bslash" ∨ textAfterRetries os virtualKey = some name) ∧
       VirtualKeyToString os virtualKey =
         some (bracketed name
           (controlHeld os && IsNullOrEmpty (controlText os virtualKey))
           (shiftHeld os && IsNullOrEmpty (shiftText os virtualKey))
           (altHeld os))) := by
  refine ⟨DecorateInput_eq_bracketed input control shift alt, ?_⟩
  rw [VirtualKeyToString_eq]
  split
  · exact Or.inr ⟨"lt", Or.inl rfl, by rw [DecorateInput_eq_bracketed]; rfl⟩
  · split
    · exact Or.inr ⟨"Bslash", Or.inr (Or.inl rfl), by rw [DecorateInput_eq_bracketed]; rfl⟩
    · split
      · cases ht : textAfterRetries os virtualKey with
        | none => simp_all [IsNullOrEmpty]
        | some t =>
          exact Or.inr ⟨t, Or.inr (Or.inr rfl), by rw [DecorateInput_eq_bracketed]; rfl⟩
      · exact Or.inl rfl

/-- Masking a byte twice is masking it once. -/
theorem and_mask_mask (x : Nat) : (x &&& 0x7F) &&& 0x7F = x &&& 0x7F := by
  have h : x &&& 0x7F ≤ 0x7F := Nat.and_le_right
  generalize x &&& 0x7F = y at h
  have key : ∀ y, y < 128 → y &&& 0x7F = y := by decide
  exact key y (by omega)

/-- A masked byte has its "down" bit clear. -/
theorem and_mask_down (x : Nat) : (x &&& 0x7F) &&& 0x80 = 0 := by
  have h : x &&& 0x7F ≤ 0x7F := Nat.and_le_right
  generalize x &&& 0x7F = y at h
  have key : ∀ y, y < 128 → y &&& 0x80 = 0 := by decide
  exact key y (by omega)

/-- Releasing Control does not change the cleared state. -/
theorem clearedState_releaseControl (os : KeyboardOS) :
    clearedState (releaseControl os) = clearedState os := by
  funext j
  simp only [clearedState, releaseControl, setByte]
  by_cases h : j = VK_CONTROL
  · subst h
    simp only [true_or, if_true]
    exact and_mask_mask _
  · simp [h]

/-- Releasing Control does not change the Shift-only translation. -/
theorem shiftText_releaseControl (os : KeyboardOS) (virtualKey : Int) :
    shiftText (releaseControl os) virtualKey = shiftText os virtualKey := by
  have h : stateWithOnly (releaseControl os) VK_SHIFT = stateWithOnly os VK_SHIFT := by
    funext j
    simp only [stateWithOnly, clearedState_releaseControl]
  simp only [shiftText, scanCodeOf, h]
  rfl

/-- After releasing Control, Control is not held. -/
theorem controlHeld_releaseControl (os : KeyboardOS) :
    controlHeld (releaseControl os) = false := by
  simp only [controlHeld, releaseControl, setByte, if_true]
  rw [and_mask_down]
  rfl

/-- Releasing Control does not change whether Shift is held. -/
theorem shiftHeld_releaseControl (os : KeyboardOS) :
    shiftHeld (releaseControl os) = shiftHeld os := by
  simp [shiftHeld, releaseControl, setByte, VK_SHIFT, VK_CONTROL]

/-- Releasing Control does not change whether Alt is held. -/
theorem altHeld_releaseControl (os : KeyboardOS) :
    altHeld (releaseControl os) = altHeld os := by
  simp [altHeld, releaseControl, setByte, VK_MENU, VK_CONTROL]

/-- C10: when Control and Shift are both held and the Control-only and the
Shift-only translations are both non-empty, the output is built from the
Shift-only text with neither `C-` nor `S-`: `<lt>` or `<Bslash>` forms and the
bracketed form carry at most `A-`.  With Alt not held and a Shift-only text
other than `<` and backslash the output is exactly the bare Shift-only text,
and it equals the output for the same keyboard with Control released (Shift
alone). -/
theorem C10_both_consumed (os : KeyboardOS) (virtualKey : Int)
    (hc : controlHeld os = true) (hs : shiftHeld os = true)
    (hct : IsNullOrEmpty (controlText os virtualKey) = false)
    (hst : IsNullOrEmpty (shiftText os virtualKey) = false) :
    (VirtualKeyToString os virtualKey =
      if shiftText os virtualKey = some "<" then
        some (DecorateInput (some "lt") false false (altHeld os))
      else if shiftText os virtualKey = some "\\" then
        some (DecorateInput (some "Bslash") false false (altHeld os))
      else if altHeld os then
        some (DecorateInput (shiftText os virtualKey) false false (altHeld os))
      else shiftText os virtualKey) ∧
    (altHeld os = false → shiftText os virtualKey ≠ some "<" →
      shiftText os virtualKey ≠ some "\\" →
      VirtualKeyToString os virtualKey = shiftText os virtualKey ∧
      VirtualKeyToString (releaseControl os) virtualKey = VirtualKeyToString os virtualKey) := by
  have hgen : VirtualKeyToString os virtualKey =
      if shiftText os virtualKey = some "<" then
        some (DecorateInput (some "lt") false false (altHeld os))
      else if shiftText os virtualKey = some "\\" then
        some (DecorateInput (some "Bslash") false false (altHeld os))
      else if altHeld os then
        some (DecorateInput (shiftText os virtualKey) false false (altHeld os))
      else shiftText os virtualKey := by
    rw [VirtualKeyToString_eq]
    simp only [textAfterRetries, controlReported, shiftReported, hc, hs, hct, hst,
      Bool.true_and, Bool.not_false, Bool.false_or, if_true, Bool.and_true]
  refine ⟨hgen, ?_⟩
  intro ha hlt hbs
  have hout : VirtualKeyToString os virtualKey = shiftText os virtualKey := by
    rw [hgen, if_neg hlt, if_neg hbs, ha]
    rfl
  refine ⟨hout, ?_⟩
  rw [hout, VirtualKeyToString_eq]
  simp only [textAfterRetries, controlReported, shiftReported, controlHeld_releaseControl,
    shiftHeld_releaseControl, altHeld_releaseControl, shiftText_releaseControl, hs, hst, ha,
    Bool.true_and, Bool.false_and, Bool.not_false, Bool.false_or, if_true, hlt, hbs, if_false,
    Bool.false_eq_true]

/-- An instance of C10: Control+Shift+A on the US layout gives `A`, as Shift+A. -/
theorem C10_both_consumed_witness :
    controlHeld (tableKeyboard (snapshot true true false) usTable) = true ∧
    shiftHeld (tableKeyboard (snapshot true true false) usTable) = true ∧
    controlText (tableKeyboard (snapshot true true false) usTable) 0x41 = some "\x01" ∧
    shiftText (tableKeyboard (snapshot true true false) usTable) 0x41 = some "A" ∧
    VirtualKeyToString (tableKeyboard (snapshot true true false) usTable) 0x41 = some "A" ∧
    VirtualKeyToString (releaseControl (tableKeyboard (snapshot true true false) usTable)) 0x41
      = some "A" :=
  ⟨by decide, by decide, by decide, by decide,
    ((C10_both_consumed (tableKeyboard (snapshot true true false) usTable) 0x41
      (by decide) (by decide) (by decide) (by decide)).2
      (by decide) (by decide) (by decide)).1.trans (by decide),
    by decide⟩

/-! ## Theorems: window region -/

/-- The test `EqualRect` decides equality of rectangles. -/
theorem EqualRect_iff (a b : RECT) : EqualRect a b = true ↔ a = b := by
  cases a
  cases b
  simp [EqualRect]

/-- The result of `update_region` in terms of `computedRegion`. -/
theorem update_region_eq (os : WindowOS) (data : window) :
    update_region os data =
      ({ data with rgn := computedRegion os data },
        if computedRegion os data = data.rgn then []
        else if computedRegion os data = zeroRect then [RegionCall.setNull data.hwnd]
        else [RegionCall.setRect data.hwnd (computedRegion os data)]) := by
  rcases data with ⟨hwnd, w, h, rgn, th, comp⟩
  have hE : ∀ a b : RECT, EqualRect a b = decide (a = b) := by
    intro a b
    by_cases hab : a = b
    · simp [hab, (EqualRect_iff b b).2 rfl]
    · have : EqualRect a b ≠ true := fun hh => hab ((EqualRect_iff a b).1 hh)
      simp [hab, this]
  simp only [update_region, computedRegion, hE]
  cases hz : os.IsZoomed hwnd <;> cases comp <;> simp [zeroRect] <;>
    split_ifs <;> simp_all

/-- C6 fails as stated: for a maximized window of width 0 and height 100 whose
client rectangle is its window rectangle, the new region `(0, 0, 0, 100)`
differs from the cached all-zero one and has zero area, yet `update_region`
calls `SetWindowRgn` with a region created from the rectangle, not with NULL. -/
theorem C6_counterexample :
    zeroArea ⟨0, 0, 0, 100⟩ = true ∧
    (update_region (maximizedOS ⟨0, 0, 0, 100⟩ ⟨0, 0, 0, 100⟩) (windowWith zeroRect true)).1.rgn
      = ⟨0, 0, 0, 100⟩ ∧
    (update_region (maximizedOS ⟨0, 0, 0, 100⟩ ⟨0, 0, 0, 100⟩) (windowWith zeroRect true)).1.rgn
      ≠ (windowWith zeroRect true).rgn ∧
    (update_region (maximizedOS ⟨0, 0, 0, 100⟩ ⟨0, 0, 0, 100⟩) (windowWith zeroRect true)).2
      = [RegionCall.setRect 1 ⟨0, 0, 0, 100⟩] ∧
    (update_region (maximizedOS ⟨0, 0, 0, 100⟩ ⟨0, 0, 0, 100⟩) (windowWith zeroRect true)).2
      ≠ [RegionCall.setNull 1] := by
  decide

/-- C6, amended: whenever the newly computed clip rectangle differs from the
previous one and is the all-zero rectangle (the "no region" value of line 61),
`update_region` applies a NULL region (`SetWindowRgn` with NULL); a differing
rectangle that is not all-zero is applied as a region created from it. -/
theorem C6_null_region (os : WindowOS) (data : window)
    (hne : (update_region os data).1.rgn ≠ data.rgn) :
    ((update_region os data).1.rgn = zeroRect →
      (update_region os data).2 = [RegionCall.setNull data.hwnd]) ∧
    ((update_region os data).1.rgn ≠ zeroRect →
      (update_region os data).2
        = [RegionCall.setRect data.hwnd (update_region os data).1.rgn]) := by
  rw [update_region_eq] at hne ⊢
  have hd : computedRegion os data ≠ data.rgn := hne
  refine ⟨?_, ?_⟩
  · intro hz
    have hz0 : computedRegion os data = zeroRect := hz
    show (if computedRegion os data = data.rgn then []
      else if computedRegion os data = zeroRect then [RegionCall.setNull data.hwnd]
      else [RegionCall.setRect data.hwnd (computedRegion os data)])
        = [RegionCall.setNull data.hwnd]
    rw [if_neg hd, if_pos hz0]
  · intro hz
    have hz0 : computedRegion os data ≠ zeroRect := hz
    show (if computedRegion os data = data.rgn then []
      else if computedRegion os data = zeroRect then [RegionCall.setNull data.hwnd]
      else [RegionCall.setRect data.hwnd (computedRegion os data)])
        = [RegionCall.setRect data.hwnd (computedRegion os data)]
    rw [if_neg hd, if_neg hz0]

/-- An instance of the amended C6: a restored window with composition enabled
whose cached region is the large rectangle gets a NULL region. -/
theorem C6_null_region_witness :
    (update_region (plainOS false ⟨100, 100, 900, 700⟩)
        (windowWith ⟨0, 0, 32767, 32767⟩ true)).1.rgn
      ≠ (windowWith ⟨0, 0, 32767, 32767⟩ true).rgn ∧
    (update_region (plainOS false ⟨100, 100, 900, 700⟩)
        (windowWith ⟨0, 0, 32767, 32767⟩ true)).1.rgn = zeroRect ∧
    (update_region (plainOS false ⟨100, 100, 900, 700⟩)
        (windowWith ⟨0, 0, 32767, 32767⟩ true)).2 = [RegionCall.setNull 1] :=
  ⟨by decide, by decide,
    (C6_null_region (plainOS false ⟨100, 100, 900, 700⟩) (windowWith ⟨0, 0, 32767, 32767⟩ true)
      (by decide)).1 (by decide)⟩

/-- C7: running `update_region` a second time with the same observations
(maximized flag, window rectangle, client rectangle) issues no `SetWindowRgn`
call and leaves the window data, the cached region included, unchanged; and a
run issues no call exactly when the newly computed rectangle equals the
previously cached one, and never more than one. -/
theorem C7_update_region_idempotent (os : WindowOS) (data : window) :
    update_region os (update_region os data).1 = ((update_region os data).1, []) ∧
    ((update_region os data).2 = [] ↔ (update_region os data).1.rgn = data.rgn) ∧
    (update_region os data).2.length ≤ 1 := by
  have h1 := update_region_eq os data
  have h2 := update_region_eq os { data with rgn := computedRegion os data }
  have hc : computedRegion os { data with rgn := computedRegion os data }
      = computedRegion os data := rfl
  rw [hc] at h2
  simp only [if_true] at h2
  rw [h1]
  refine ⟨h2, ?_, ?_⟩
  · by_cases h : computedRegion os data = data.rgn
    · simp [h]
    · by_cases hz : computedRegion os data = zeroRect <;> simp [h, hz]
  · show (if computedRegion os data = data.rgn then []
      else if computedRegion os data = zeroRect then [RegionCall.setNull data.hwnd]
      else [RegionCall.setRect data.hwnd (computedRegion os data)]).length ≤ 1
    split_ifs <;> simp

/-! ## Theorems: hit test -/

/-- The 32-bit wrap is the identity on the `int` range. -/
theorem wrap32_of_range (x : Int) (h1 : -2147483648 ≤ x) (h2 : x < 2147483648) :
    wrap32 x = x := by
  unfold wrap32
  omega

/-- C8: (a) if the client-area predicate holds at the window-local point the
result is `HTCLIENT`, whatever the position and whether or not the window is
maximized; (b) if the predicate does not hold, the point lies in none of the
eight border zones (a maximized window has none) and
`point.y < titleBarHeight + yBorderWidth`, the result is `HTCAPTION`.  In (b)
the sum is the 32-bit sum the program computes; the last part states (b) with
the exact sum when that sum is in the `int` range. -/
theorem C8_hit_test (os : WindowOS) (handle : Nat) (lParam : Int)
    (xBorderWidth yBorderWidth titleBarHeight : Int) (clientAreaHitTest : Int → Int → Bool) :
    (clientAreaHitTest (localPoint os handle lParam).x (localPoint os handle lParam).y = true →
      NCHitTest os handle lParam xBorderWidth yBorderWidth titleBarHeight clientAreaHitTest
        = HTCLIENT) ∧
    (clientAreaHitTest (localPoint os handle lParam).x (localPoint os handle lParam).y = false →
      (os.IsZoomed handle = false →
        inBorderZone os handle (localPoint os handle lParam) xBorderWidth yBorderWidth
          = false) →
      (localPoint os handle lParam).y < wrap32 (titleBarHeight + yBorderWidth) →
      NCHitTest os handle lParam xBorderWidth yBorderWidth titleBarHeight clientAreaHitTest
        = HTCAPTION) ∧
    (clientAreaHitTest (localPoint os handle lParam).x (localPoint os handle lParam).y = false →
      (os.IsZoomed handle = false →
        inBorderZone os handle (localPoint os handle lParam) xBorderWidth yBorderWidth
          = false) →
      -2147483648 ≤ titleBarHeight + yBorderWidth →
      titleBarHeight + yBorderWidth < 2147483648 →
      (localPoint os handle lParam).y < titleBarHeight + yBorderWidth →
      NCHitTest os handle lParam xBorderWidth yBorderWidth titleBarHeight clientAreaHitTest
        = HTCAPTION) := by
  have hb : clientAreaHitTest (localPoint os handle lParam).x (localPoint os handle lParam).y
        = false →
      (os.IsZoomed handle = false →
        inBorderZone os handle (localPoint os handle lParam) xBorderWidth yBorderWidth
          = false) →
      (localPoint os handle lParam).y < wrap32 (titleBarHeight + yBorderWidth) →
      NCHitTest os handle lParam xBorderWidth yBorderWidth titleBarHeight clientAreaHitTest
        = HTCAPTION := by
    intro hp hz hy
    cases hzoom : os.IsZoomed handle
    · have hz := hz hzoom
      simp only [inBorderZone, decide_eq_false_iff_not, not_or, not_lt] at hz
      obtain ⟨z1, z2, z3, z4⟩ := hz
      simp only [localPoint] at hp hy z1 z2 z3 z4
      simp only [NCHitTest, hp, Bool.false_eq_true, if_false, not_lt.mpr z1, not_lt.mpr z2,
        not_lt.mpr z3, not_lt.mpr z4, gt_iff_lt, hzoom]
      simp [hy]
    · simp only [localPoint] at hp hy
      simp only [NCHitTest, hp, Bool.false_eq_true, if_false, hzoom]
      simp [hy]
  refine ⟨?_, hb, ?_⟩
  · intro hp
    simp only [localPoint] at hp
    simp only [NCHitTest, hp, if_true]
  · intro hp hz h1 h2 hy
    rw [← wrap32_of_range _ h1 h2] at hy
    exact hb hp hz hy

/-- Instances of C8: a point claimed by the predicate in the corner of a
maximized window, and a title-bar point of a restored and of a maximized
window. -/
theorem C8_hit_test_witness :
    NCHitTest (plainOS true ⟨100, 100, 900, 700⟩) 1 (101 * 65536 + 101) 8 8 30
      (fun x y => decide (x < 50 ∧ y < 50)) = HTCLIENT ∧
    NCHitTest (plainOS false ⟨100, 100, 900, 700⟩) 1 (120 * 65536 + 400) 8 8 30
      (fun x y => decide (x < 50 ∧ y < 50)) = HTCAPTION ∧
    NCHitTest (plainOS true ⟨100, 100, 900, 700⟩) 1 (101 * 65536 + 400) 8 8 30
      (fun x y => decide (x < 50 ∧ y < 50)) = HTCAPTION :=
  ⟨(C8_hit_test (plainOS true ⟨100, 100, 900, 700⟩) 1 (101 * 65536 + 101) 8 8 30
      (fun x y => decide (x < 50 ∧ y < 50))).1 (by decide),
    (C8_hit_test (plainOS false ⟨100, 100, 900, 700⟩) 1 (120 * 65536 + 400) 8 8 30
      (fun x y => decide (x < 50 ∧ y < 50))).2.1 (by decide) (by decide) (by decide),
    (C8_hit_test (plainOS true ⟨100, 100, 900, 700⟩) 1 (101 * 65536 + 400) 8 8 30
      (fun x y => decide (x < 50 ∧ y < 50))).2.2 (by decide) (by decide) (by decide)
      (by decide) (by decide)⟩

end Dotnvim
